import Mathlib

/-!
Formalisation of the signal-evaluation core of the bitcoin_bunseki repository.

The definitions below are a shallow embedding of the Python source:
* `src/config.py` — threshold constants;
* `src/server.py`, `calculate_hidden_qe_signal` — the Hidden-QE classifier
  (four condition evaluations, score, three-state signal);
* `src/server.py`, `get_data` — the composite market scorer
  (mode fallback, momentum/conservative score formulas);
* `src/server.py`, `get_arthur_scenario_history` — the historical transition
  scanner (per-week signal, OFF-to-ON transition detection, rolling window);
* `src/data_provider.py`, `get_fred_data_with_change` — observation
  construction with week-over-week percentage change;
* `src/analyze_hidden_qe_history.py`, `calculate_weekly_metrics` — the
  pandas rolling(52, min_periods=10) window shape.

Numeric values are modelled as rationals (`ℚ`); JSON null is `Option.none`.
-/

/-! ## Threshold configuration (src/config.py) -/

/-- src/config.py: `SWAPS_SURGE_THRESHOLD_PCT = 10.0`. -/
def SWAPS_SURGE_THRESHOLD_PCT : ℚ := 10

/-- src/config.py: `SWAPS_SURGE_THRESHOLD_ABS = 5.0` (billions of dollars). -/
def SWAPS_SURGE_THRESHOLD_ABS : ℚ := 5

/-- src/config.py: `SWAPS_SURGE_ZSCORE_THRESHOLD = 2.0`. -/
def SWAPS_SURGE_ZSCORE_THRESHOLD : ℚ := 2

/-- src/config.py: `SWAPS_MINIMUM_VALUE = 1.0` (billions of dollars). -/
def SWAPS_MINIMUM_VALUE : ℚ := 1

/-- src/config.py: `USDJPY_WEAKENING_THRESHOLD = 1.0` (weekly percent change). -/
def USDJPY_WEAKENING_THRESHOLD : ℚ := 1

/-- src/config.py: `USDJPY_HIGH_LEVEL = 150.0`. -/
def USDJPY_HIGH_LEVEL : ℚ := 150

/-- src/config.py: `USDJPY_HIGH_VOLATILITY = 1.5` (absolute weekly percent change). -/
def USDJPY_HIGH_VOLATILITY : ℚ := 1.5

/-- src/config.py: `TOTAL_ASSETS_INCREASE_THRESHOLD = 0.1`. -/
def TOTAL_ASSETS_INCREASE_THRESHOLD : ℚ := 0.1

/-- src/config.py: `TREASURY_HOLDINGS_INCREASE_THRESHOLD = 0.5`. -/
def TREASURY_HOLDINGS_INCREASE_THRESHOLD : ℚ := 0.5

/-- src/config.py: `HIDDEN_QE_SIGNAL_ON = 4`. -/
def HIDDEN_QE_SIGNAL_ON : Nat := 4

/-- src/config.py: `HIDDEN_QE_SIGNAL_WATCH = 2`. -/
def HIDDEN_QE_SIGNAL_WATCH : Nat := 2

/-- src/config.py: `SCORE_CALC_MODE = "momentum"`. -/
def SCORE_CALC_MODE : String := "momentum"

/-! ## Observation types

The classifier's inputs are Python dicts (or `None`); a dict field holding
JSON null is modelled as `Option.none`. -/

/-- A FRED observation dict as consumed by `calculate_hidden_qe_signal` for
WALCL (total assets) and TREAST (treasury holdings): fields `value`,
`change` (nullable weekly percent change) and `date`. -/
structure FredObs where
  value : ℚ
  change : Option ℚ
  date : String
deriving Repr, DecidableEq

/-- The SWPT (central-bank liquidity swaps) observation dict: fields `value`
(millions of dollars), `change` (weekly percent change, nullable),
`change_abs` (weekly absolute change in millions, read with
`.get("change_abs", 0)`), `zscore` (read with `.get("zscore", 0)`). -/
structure SwptObs where
  value : ℚ
  change : Option ℚ
  change_abs : Option ℚ
  zscore : Option ℚ
  date : String
deriving Repr, DecidableEq

/-- The USDJPY observation dict: fields `value` and `change` (weekly percent
change, nullable). -/
structure UsdJpyObs where
  value : ℚ
  change : Option ℚ
deriving Repr, DecidableEq

/-! ## Condition evaluators (src/server.py lines 125-300)

Each evaluator returns the `met` flag written into `details[...]["met"]`,
with `false` when the observation dict is missing or its `change` is null
(the dict then keeps its initial `met: False`, "data unavailable" entry). -/

/-- Condition 1 (src/server.py lines 125-151): Total Assets (WALCL).
`met = change > config.TOTAL_ASSETS_INCREASE_THRESHOLD` (strict). -/
def totalAssetsMet (walcl_data : Option FredObs) : Bool :=
  match walcl_data with
  | none => false
  | some d =>
    match d.change with
    | none => false
    | some change => decide (change > TOTAL_ASSETS_INCREASE_THRESHOLD)

/-- Condition 2 (src/server.py lines 153-179): Treasury Holdings (TREAST).
`met = change < config.TREASURY_HOLDINGS_INCREASE_THRESHOLD` (strict). -/
def treasuryMet (treast_data : Option FredObs) : Bool :=
  match treast_data with
  | none => false
  | some d =>
    match d.change with
    | none => false
    | some change => decide (change < TREASURY_HOLDINGS_INCREASE_THRESHOLD)

/-- Condition 3 (src/server.py lines 181-252): Central Bank Swaps (SWPT).
`value_b = value / 1000 if value else 0`; `change_abs` read with default 0
and `change_abs_b = change_abs / 1000 if change_abs else 0`;
`zscore` read with default 0.  Sub-condition A (gated by
`value_b >= SWAPS_MINIMUM_VALUE`): `change_pct >= SWAPS_SURGE_THRESHOLD_PCT`
and `change_abs_b >= SWAPS_SURGE_THRESHOLD_ABS`.  Sub-condition B
(ungated): `zscore >= SWAPS_SURGE_ZSCORE_THRESHOLD`.  `met` is their OR. -/
def swapsMet (swpt_data : Option SwptObs) : Bool :=
  match swpt_data with
  | none => false
  | some d =>
    match d.change with
    | none => false
    | some change_pct =>
      let value_b : ℚ := if d.value = 0 then 0 else d.value / 1000
      let change_abs : ℚ := d.change_abs.getD 0
      let change_abs_b : ℚ := if change_abs = 0 then 0 else change_abs / 1000
      let zscore : ℚ := d.zscore.getD 0
      (decide (value_b ≥ SWAPS_MINIMUM_VALUE) &&
        (decide (change_pct ≥ SWAPS_SURGE_THRESHOLD_PCT) &&
          decide (change_abs_b ≥ SWAPS_SURGE_THRESHOLD_ABS))) ||
      decide (zscore ≥ SWAPS_SURGE_ZSCORE_THRESHOLD)

/-- Condition 4 (src/server.py lines 254-300): USDJPY.
`volatility = abs(change)`.  Branch A: `change >= USDJPY_WEAKENING_THRESHOLD`;
branch B (elif): `value >= USDJPY_HIGH_LEVEL and
volatility >= USDJPY_HIGH_VOLATILITY`; `met` is set in either branch. -/
def usdjpyMet (usdjpy_data : Option UsdJpyObs) : Bool :=
  match usdjpy_data with
  | none => false
  | some d =>
    match d.change with
    | none => false
    | some change =>
      let volatility : ℚ := |change|
      decide (change ≥ USDJPY_WEAKENING_THRESHOLD) ||
        (decide (d.value ≥ USDJPY_HIGH_LEVEL) &&
          decide (volatility ≥ USDJPY_HIGH_VOLATILITY))

/-! ## Hidden-QE classifier (src/server.py lines 50-323) -/

/-- The score accumulated by `calculate_hidden_qe_signal`: `score += 1` once
per met condition, in source order total_assets, treasury, swaps, usdjpy. -/
def hiddenQeScore (walcl_data : Option FredObs) (swpt_data : Option SwptObs)
    (treast_data : Option FredObs) (usdjpy_data : Option UsdJpyObs) : Nat :=
  (if totalAssetsMet walcl_data then 1 else 0) +
  (if treasuryMet treast_data then 1 else 0) +
  (if swapsMet swpt_data then 1 else 0) +
  (if usdjpyMet usdjpy_data then 1 else 0)

/-- Signal ladder (src/server.py lines 302-314 and
src/analyze_hidden_qe_history.py lines 212-218):
`"ON"` if `score >= on_threshold`, else `"WATCH"` if
`score >= watch_threshold`, else `"OFF"`. -/
def signalFromScore (on_threshold watch_threshold score : Nat) : String :=
  if score ≥ on_threshold then "ON"
  else if score ≥ watch_threshold then "WATCH"
  else "OFF"

/-- Output record of `calculate_hidden_qe_signal`, restricted to the fields
the claims are about: `signal`, `score`, the per-condition `met` flags
stored in `details`, and `updated_at` (written from `datetime.now()` at
line 75; here the clock reading is an explicit `now` argument). -/
structure HiddenQeResult where
  signal : String
  score : Nat
  total_assets_met : Bool
  treasury_met : Bool
  swaps_met : Bool
  usdjpy_met : Bool
  updated_at : String
deriving Repr, DecidableEq

/-- src/server.py `calculate_hidden_qe_signal` (lines 50-323).  The Python
function reads the wall clock via `datetime.now()`; that hidden input is the
explicit first argument `now`. -/
def calculate_hidden_qe_signal (now : String) (walcl_data : Option FredObs)
    (swpt_data : Option SwptObs) (treast_data : Option FredObs)
    (usdjpy_data : Option UsdJpyObs) : HiddenQeResult :=
  { signal := signalFromScore HIDDEN_QE_SIGNAL_ON HIDDEN_QE_SIGNAL_WATCH
      (hiddenQeScore walcl_data swpt_data treast_data usdjpy_data)
    score := hiddenQeScore walcl_data swpt_data treast_data usdjpy_data
    total_assets_met := totalAssetsMet walcl_data
    treasury_met := treasuryMet treast_data
    swaps_met := swapsMet swpt_data
    usdjpy_met := usdjpyMet usdjpy_data
    updated_at := now }

/-! ## Composite market scorer (src/server.py lines 844-875) -/

/-- Mode resolution (src/server.py lines 856-858): any value other than
`"momentum"` or `"conservative"` falls back to `"momentum"`. -/
def resolveScoreMode (score_mode : String) : String :=
  if score_mode = "momentum" ∨ score_mode = "conservative" then score_mode
  else "momentum"

/-- Composite score (src/server.py lines 860-875) from the summed weights of
available bullish/bearish/neutral signals.  Momentum:
`(bull_w - bear_w) / max(active_w, 1) * 100`; conservative:
`(bull_w - bear_w) / total_w * 100` when `total_w > 0`, else `0`. -/
def computeCompositeScore (score_mode : String) (bull_w bear_w neut_w : Nat) : ℚ :=
  if resolveScoreMode score_mode = "momentum" then
    ((bull_w : ℚ) - (bear_w : ℚ)) / ((max (bull_w + bear_w) 1 : Nat) : ℚ) * 100
  else
    if bull_w + bear_w + neut_w > 0 then
      ((bull_w : ℚ) - (bear_w : ℚ)) / ((bull_w + bear_w + neut_w : Nat) : ℚ) * 100
    else 0

/-! ## Historical transition scanner (src/server.py lines 534-623) -/

/-- Per-week signal sequence: each weekly score classified through the
configured thresholds (src/server.py lines 600-606). -/
def weeklySignals (scores : List Nat) : List String :=
  scores.map (signalFromScore HIDDEN_QE_SIGNAL_ON HIDDEN_QE_SIGNAL_WATCH)

/-- Transition detection loop (src/server.py lines 615-623): starting from
`prev_signal`, emit the index of each week where `prev_signal != "ON"` and
the current signal is `"ON"`, then set `prev_signal` to the current signal. -/
def onTransitionIdx (prev_signal : String) (sigs : List String) (idx : Nat) : List Nat :=
  match sigs with
  | [] => []
  | s :: rest =>
    (if prev_signal ≠ "ON" ∧ s = "ON" then [idx] else []) ++
      onTransitionIdx s rest (idx + 1)

/-- The scanner over a weekly score series: `prev_signal` is initialised to
`"OFF"` (src/server.py line 537) and the loop starts at index 0. -/
def scanOnTransitions (scores : List Nat) : List Nat :=
  onTransitionIdx "OFF" (weeklySignals scores) 0

/-! ## Rolling z-score window (src/server.py lines 553-560) -/

/-- The slice `swpt_values[max(0, i-52):i+1]` taken at loop index `i`
(src/server.py line 554).  Python's `list[a:b]` is `(take b).drop a`, and
`Nat` subtraction already clamps `i - 52` at 0. -/
def swptRecentWindow (swpt_values : List ℚ) (i : Nat) : List ℚ :=
  (swpt_values.take (i + 1)).drop (i - 52)

/-- src/server.py lines 555-560: if the window holds at least 10 samples the
z-score is `(swpt[date] - mean) / std` over the window (lines 556-558, an
irrational real-valued computation abstracted here as the argument `zcalc`);
otherwise the z-score is literally `0`. -/
def rollingZscore (zcalc : List ℚ → ℚ) (swpt_values : List ℚ) (i : Nat) : ℚ :=
  let swpt_recent := swptRecentWindow swpt_values i
  if swpt_recent.length ≥ 10 then zcalc swpt_recent else 0

/-- The window shape of `rolling(window=52, min_periods=10)` in
src/analyze_hidden_qe_history.py lines 93-94: at row `i` pandas uses rows
`max(0, i-51) .. i`, i.e. `(take (i+1)).drop (i+1-52)`. -/
def analyzerRollingWindow (values : List ℚ) (i : Nat) : List ℚ :=
  (values.take (i + 1)).drop (i + 1 - 52)

/-! ## Observation construction (src/data_provider.py lines 74-135) -/

/-- Return dict of `get_fred_data_with_change`: `value`, `prev_value`
(null when only one observation exists), `change` and `date`. -/
structure FredChangeResult where
  value : ℚ
  prev_value : Option ℚ
  change : Option ℚ
  date : String
deriving Repr, DecidableEq

/-- src/data_provider.py `get_fred_data_with_change` (lines 74-135), applied
to the list `valid_obs` of (date, value) pairs already parsed from the API
response (newest first).  With two or more observations:
`change = ((current - previous) / previous * 100) if previous != 0 else 0`
(line 115).  With exactly one: `change: 0`, `prev_value: None` (lines
124-131).  Otherwise the function returns `None` (line 135). -/
def get_fred_data_with_change (valid_obs : List (String × ℚ)) : Option FredChangeResult :=
  match valid_obs with
  | (d0, v0) :: (_, v1) :: _ =>
    some { value := v0, prev_value := some v1,
           change := some (if v1 = 0 then 0 else (v0 - v1) / v1 * 100),
           date := d0 }
  | [(d0, v0)] =>
    some { value := v0, prev_value := none, change := some 0, date := d0 }
  | [] => none

/-- src/server.py line 525 (USDJPY history loop):
`change = ((value - prev_value) / prev_value * 100) if prev_value else 0` —
a missing or zero prior value yields `0`, not null. -/
def usdjpyHistChange (prev_value : Option ℚ) (value : ℚ) : ℚ :=
  match prev_value with
  | none => 0
  | some p => if p = 0 then 0 else (value - p) / p * 100

/-- src/server.py line 548 (scanner WALCL change; SWPT at line 549 is
analogous): the percent change is `None` unless a prior date exists and its
value is nonzero. -/
def scannerPctChange (prev : Option ℚ) (cur : ℚ) : Option ℚ :=
  match prev with
  | none => none
  | some p => if p = 0 then none else some ((cur - p) / p * 100)

/-! ## Helper lemmas -/

/-- Summing four boolean indicators equals counting `true` in their list,
and is at most 4. -/
lemma sum_ind_eq_count (a b c d : Bool) :
    ((if a then 1 else 0) + (if b then 1 else 0) + (if c then 1 else 0) +
      (if d then 1 else 0) : Nat) = [a, b, c, d].count true ∧
    ((if a then 1 else 0) + (if b then 1 else 0) + (if c then 1 else 0) +
      (if d then 1 else 0) : Nat) ≤ 4 := by
  cases a <;> cases b <;> cases c <;> cases d <;> simp [List.count_cons]

/-! ## Claim theorems -/

/-- C1: The Hidden-QE classifier's score equals the count of met conditions
among total_assets, treasury, swaps, usdjpy (so 0 ≤ score ≤ 4), the signal
field is the score classified through the default thresholds (4, 2), and
exhaustively over scores 0..4 the signal is "ON" at 4, "WATCH" at 2 or 3,
and "OFF" at 0 or 1. -/
theorem C1_hidden_qe_classifier (now : String) (walcl_data : Option FredObs)
    (swpt_data : Option SwptObs) (treast_data : Option FredObs)
    (usdjpy_data : Option UsdJpyObs) (n : Fin 5) :
    (calculate_hidden_qe_signal now walcl_data swpt_data treast_data usdjpy_data).score =
      [totalAssetsMet walcl_data, treasuryMet treast_data,
        swapsMet swpt_data, usdjpyMet usdjpy_data].count true ∧
    (calculate_hidden_qe_signal now walcl_data swpt_data treast_data usdjpy_data).score ≤ 4 ∧
    (calculate_hidden_qe_signal now walcl_data swpt_data treast_data usdjpy_data).signal =
      signalFromScore HIDDEN_QE_SIGNAL_ON HIDDEN_QE_SIGNAL_WATCH
        (calculate_hidden_qe_signal now walcl_data swpt_data treast_data usdjpy_data).score ∧
    signalFromScore HIDDEN_QE_SIGNAL_ON HIDDEN_QE_SIGNAL_WATCH n.val =
      (if n.val = 4 then "ON" else if 2 ≤ n.val then "WATCH" else "OFF") := by
  refine ⟨?_, ?_, rfl, ?_⟩
  · exact (sum_ind_eq_count (totalAssetsMet walcl_data) (treasuryMet treast_data)
      (swapsMet swpt_data) (usdjpyMet usdjpy_data)).1
  · exact (sum_ind_eq_count (totalAssetsMet walcl_data) (treasuryMet treast_data)
      (swapsMet swpt_data) (usdjpyMet usdjpy_data)).2
  · revert n; decide

/-- C3: For every USDJPY observation with non-null change_pct, the usdjpy
condition is met iff change ≥ weakening_threshold or (value ≥ high_level and
|change| ≥ high_volatility); in particular value = 152, change = -2.0 is met
even though the change is negative. -/
theorem C3_usdjpy_condition (d : UsdJpyObs) (c : ℚ) (h : d.change = some c) :
    (usdjpyMet (some d) = true ↔
      (c ≥ USDJPY_WEAKENING_THRESHOLD ∨
        (d.value ≥ USDJPY_HIGH_LEVEL ∧ |c| ≥ USDJPY_HIGH_VOLATILITY))) ∧
    usdjpyMet (some ⟨152, some (-2)⟩) = true := by
  constructor
  · simp [usdjpyMet, h]
  · simp [usdjpyMet, USDJPY_WEAKENING_THRESHOLD, USDJPY_HIGH_LEVEL, USDJPY_HIGH_VOLATILITY]
    norm_num

/-- C4: The total_assets condition is met iff change_pct > 0.1 (strict, so
exactly 0.1 is not met) and the treasury condition is met iff
change_pct < 0.5 (strict, so exactly 0.5 is not met). -/
theorem C4_strict_boundaries (d : FredObs) (c : ℚ) (h : d.change = some c) :
    (totalAssetsMet (some d) = true ↔ c > TOTAL_ASSETS_INCREASE_THRESHOLD) ∧
    (treasuryMet (some d) = true ↔ c < TREASURY_HOLDINGS_INCREASE_THRESHOLD) ∧
    totalAssetsMet (some { d with change := some (1/10) }) = false ∧
    treasuryMet (some { d with change := some (1/2) }) = false := by
  refine ⟨?_, ?_, ?_, ?_⟩
  · simp [totalAssetsMet, h]
  · simp [treasuryMet, h]
  · simp [totalAssetsMet]
    norm_num [TOTAL_ASSETS_INCREASE_THRESHOLD]
  · simp [treasuryMet]
    norm_num [TREASURY_HOLDINGS_INCREASE_THRESHOLD]

/-- C2: For every swaps observation with non-null change_pct, after the
millions-to-billions conversion by 1000, the condition is met iff
(value_b ≥ min_value ∧ change_pct ≥ pct_threshold ∧ change_abs_b ≥
abs_threshold) or zscore ≥ zscore_threshold; the z-score path has no
min_value gate, so value_b < min_value with zscore ≥ zscore_threshold is
still met. -/
theorem C2_swaps_condition (d : SwptObs) (c : ℚ) (h : d.change = some c) :
    (swapsMet (some d) = true ↔
      ((d.value / 1000 ≥ SWAPS_MINIMUM_VALUE ∧ c ≥ SWAPS_SURGE_THRESHOLD_PCT ∧
        d.change_abs.getD 0 / 1000 ≥ SWAPS_SURGE_THRESHOLD_ABS) ∨
       d.zscore.getD 0 ≥ SWAPS_SURGE_ZSCORE_THRESHOLD)) ∧
    (d.value / 1000 < SWAPS_MINIMUM_VALUE →
      d.zscore.getD 0 ≥ SWAPS_SURGE_ZSCORE_THRESHOLD → swapsMet (some d) = true) := by
  have hval : (if d.value = 0 then (0:ℚ) else d.value / 1000) = d.value / 1000 := by
    by_cases h0 : d.value = 0
    · simp [h0]
    · simp [h0]
  have habs : (if d.change_abs.getD 0 = 0 then (0:ℚ) else d.change_abs.getD 0 / 1000) =
      d.change_abs.getD 0 / 1000 := by
    by_cases h0 : d.change_abs.getD 0 = 0
    · simp [h0]
    · simp [h0]
  have hiff : swapsMet (some d) = true ↔
      ((d.value / 1000 ≥ SWAPS_MINIMUM_VALUE ∧ c ≥ SWAPS_SURGE_THRESHOLD_PCT ∧
        d.change_abs.getD 0 / 1000 ≥ SWAPS_SURGE_THRESHOLD_ABS) ∨
       d.zscore.getD 0 ≥ SWAPS_SURGE_ZSCORE_THRESHOLD) := by
    simp only [swapsMet, h, hval, habs, Bool.or_eq_true, Bool.and_eq_true,
      decide_eq_true_eq]
  refine ⟨hiff, fun _ hz => hiff.mpr (Or.inr hz)⟩

/-- Witness for C2 at a concrete observation with value 500 million
(value_b = 0.5 < min_value = 1) and zscore 3 ≥ 2: the z-score path alone
makes the condition met. -/
theorem C2_swaps_condition_witness :
    (swapsMet (some (⟨500, some 0, some 0, some 3, "w"⟩ : SwptObs)) = true ↔
      (((500:ℚ) / 1000 ≥ SWAPS_MINIMUM_VALUE ∧ (0:ℚ) ≥ SWAPS_SURGE_THRESHOLD_PCT ∧
        (0:ℚ) / 1000 ≥ SWAPS_SURGE_THRESHOLD_ABS) ∨
       (3:ℚ) ≥ SWAPS_SURGE_ZSCORE_THRESHOLD)) ∧
    swapsMet (some (⟨500, some 0, some 0, some 3, "w"⟩ : SwptObs)) = true :=
  ⟨(C2_swaps_condition ⟨500, some 0, some 0, some 3, "w"⟩ 0 rfl).1,
   (C2_swaps_condition ⟨500, some 0, some 0, some 3, "w"⟩ 0 rfl).2
     (by norm_num [SWAPS_MINIMUM_VALUE]) (by norm_num [SWAPS_SURGE_ZSCORE_THRESHOLD])⟩

/-- Witness for C3 at value = 152, change_pct = -2: met through the
intervention-watch path despite the negative direction. -/
theorem C3_usdjpy_condition_witness :
    (usdjpyMet (some (⟨152, some (-2)⟩ : UsdJpyObs)) = true ↔
      ((-2:ℚ) ≥ USDJPY_WEAKENING_THRESHOLD ∨
        ((152:ℚ) ≥ USDJPY_HIGH_LEVEL ∧ |(-2:ℚ)| ≥ USDJPY_HIGH_VOLATILITY))) ∧
    usdjpyMet (some ⟨152, some (-2)⟩) = true :=
  C3_usdjpy_condition ⟨152, some (-2)⟩ (-2) rfl

/-- Witness for C4 at a concrete observation with change_pct = 1. -/
theorem C4_strict_boundaries_witness :
    (totalAssetsMet (some (⟨100, some 1, "x"⟩ : FredObs)) = true ↔
      (1:ℚ) > TOTAL_ASSETS_INCREASE_THRESHOLD) ∧
    (treasuryMet (some (⟨100, some 1, "x"⟩ : FredObs)) = true ↔
      (1:ℚ) < TREASURY_HOLDINGS_INCREASE_THRESHOLD) ∧
    totalAssetsMet (some { (⟨100, some 1, "x"⟩ : FredObs) with change := some (1/10) }) = false ∧
    treasuryMet (some { (⟨100, some 1, "x"⟩ : FredObs) with change := some (1/2) }) = false :=
  C4_strict_boundaries ⟨100, some 1, "x"⟩ 1 rfl

/-- C5: The composite score is (bull_w - bear_w) / max(active_w, 1) * 100 in
momentum mode and (bull_w - bear_w) / total_w * 100 (0 when total_w = 0) in
conservative mode; any other mode falls back to momentum; for bull_w = 3,
bear_w = 1, neut_w = 5 the momentum score is 50 and the conservative score
is 200/9. -/
theorem C5_composite_score (bull_w bear_w neut_w : Nat) (m : String)
    (hm1 : m ≠ "momentum") (hm2 : m ≠ "conservative") :
    computeCompositeScore "momentum" bull_w bear_w neut_w =
      ((bull_w : ℚ) - (bear_w : ℚ)) / ((max (bull_w + bear_w) 1 : Nat) : ℚ) * 100 ∧
    (0 < bull_w + bear_w + neut_w →
      computeCompositeScore "conservative" bull_w bear_w neut_w =
        ((bull_w : ℚ) - (bear_w : ℚ)) / ((bull_w + bear_w + neut_w : Nat) : ℚ) * 100) ∧
    (bull_w + bear_w + neut_w = 0 →
      computeCompositeScore "conservative" bull_w bear_w neut_w = 0) ∧
    computeCompositeScore m bull_w bear_w neut_w =
      computeCompositeScore "momentum" bull_w bear_w neut_w ∧
    computeCompositeScore "momentum" 3 1 5 = 50 ∧
    computeCompositeScore "conservative" 3 1 5 = 200/9 := by
  have hres : resolveScoreMode m = "momentum" := by
    simp [resolveScoreMode, hm1, hm2]
  refine ⟨?_, ?_, ?_, ?_, ?_, ?_⟩
  · simp [computeCompositeScore, resolveScoreMode]
  · intro hpos
    simp [computeCompositeScore, resolveScoreMode, hpos]
  · intro hzero
    simp [computeCompositeScore, resolveScoreMode, hzero]
  · unfold computeCompositeScore
    rw [hres]
    simp [resolveScoreMode]
  · simp [computeCompositeScore, resolveScoreMode]
    norm_num
  · simp [computeCompositeScore, resolveScoreMode]
    norm_num

/-- Witness for C5 at bull_w = 3, bear_w = 1, neut_w = 5 and the invalid
mode string "x". -/
theorem C5_composite_score_witness :
    (computeCompositeScore "momentum" 3 1 5 =
      ((3 : ℚ) - (1 : ℚ)) / ((max (3 + 1) 1 : Nat) : ℚ) * 100) ∧
    (computeCompositeScore "conservative" 3 1 5 =
      ((3 : ℚ) - (1 : ℚ)) / ((3 + 1 + 5 : Nat) : ℚ) * 100) ∧
    computeCompositeScore "x" 3 1 5 = computeCompositeScore "momentum" 3 1 5 ∧
    computeCompositeScore "momentum" 3 1 5 = 50 ∧
    computeCompositeScore "conservative" 3 1 5 = 200/9 :=
  ⟨(C5_composite_score 3 1 5 "x" (by decide) (by decide)).1,
   (C5_composite_score 3 1 5 "x" (by decide) (by decide)).2.1 (by norm_num),
   (C5_composite_score 3 1 5 "x" (by decide) (by decide)).2.2.2.1,
   (C5_composite_score 3 1 5 "x" (by decide) (by decide)).2.2.2.2.1,
   (C5_composite_score 3 1 5 "x" (by decide) (by decide)).2.2.2.2.2⟩

/-- Unrolling `onTransitionIdx`: the emitted indices are exactly the
positions `k` whose own signal is "ON" while the signal one step earlier
(the starting `prev_signal` for position 0) is not "ON". -/
lemma onTransitionIdx_eq_filterMap (sigs : List String) (prev_signal : String) (idx : Nat) :
    onTransitionIdx prev_signal sigs idx =
      (List.range sigs.length).filterMap (fun k =>
        if (prev_signal :: sigs).getD k "" ≠ "ON" ∧ sigs.getD k "" = "ON"
        then some (idx + k) else none) := by
  induction sigs generalizing prev_signal idx with
  | nil => simp [onTransitionIdx]
  | cons s rest ih =>
    rw [onTransitionIdx, List.length_cons, List.range_succ_eq_map, List.filterMap_cons,
      List.filterMap_map, ih s (idx + 1)]
    have harith : ∀ j : Nat, idx + (j + 1) = idx + 1 + j := fun j => by omega
    have hfun : ((fun k =>
        if (prev_signal :: s :: rest).getD k "" ≠ "ON" ∧ (s :: rest).getD k "" = "ON"
        then some (idx + k) else none) ∘ Nat.succ) =
        (fun k =>
          if (s :: rest).getD k "" ≠ "ON" ∧ rest.getD k "" = "ON"
          then some (idx + 1 + k) else none) := by
      funext k
      show (if (prev_signal :: s :: rest).getD (k + 1) "" ≠ "ON" ∧
          (s :: rest).getD (k + 1) "" = "ON"
          then some (idx + (k + 1)) else none) = _
      rw [List.getD_cons_succ, List.getD_cons_succ, harith k]
    rw [hfun]
    by_cases h : prev_signal ≠ "ON" ∧ s = "ON"
    · simp [h]
    · simp [h]

/-- C6: The transition scanner starts from prev_signal = "OFF" and emits a
transition exactly at the indices whose signal is "ON" while the previous
week's signal (or the initial "OFF") is not "ON"; for weekly scores
[1,2,3,4,4,2,4] under the default thresholds the transitions are exactly at
indices 3 and 6. -/
theorem C6_transition_scanner (scores : List Nat) :
    scanOnTransitions scores =
      (List.range scores.length).filterMap (fun k =>
        if ("OFF" :: weeklySignals scores).getD k "" ≠ "ON" ∧
            (weeklySignals scores).getD k "" = "ON"
        then some k else none) ∧
    scanOnTransitions [1, 2, 3, 4, 4, 2, 4] = [3, 6] := by
  constructor
  · rw [scanOnTransitions, onTransitionIdx_eq_filterMap]
    have hlen : (weeklySignals scores).length = scores.length := by
      simp [weeklySignals]
    rw [hlen]
    simp only [Nat.zero_add]
  · decide

/-- C7 counterexample: in `get_fred_data_with_change`, a zero prior value
does NOT yield a null change_pct — with observations 5 (current) and 0
(prior), the returned dict has `change: 0` (a number), not null. -/
theorem C7_counterexample :
    get_fred_data_with_change [("2025-01-10", 5), ("2025-01-03", 0)] =
      some { value := 5, prev_value := some 0, change := some 0,
             date := "2025-01-10" } ∧
    (some (0:ℚ) : Option ℚ) ≠ (none : Option ℚ) := by
  constructor
  · simp [get_fred_data_with_change]
  · simp

/-- C7 amended: when the prior value is missing or zero,
`get_fred_data_with_change` sets `change` to the sentinel 0 (and never to
null), and the USDJPY history loop (`usdjpyHistChange`, src/server.py line
525) likewise yields the sentinel 0; it is the historical scanner's
percent-change computation (`scannerPctChange`, src/server.py line 548)
that yields null on a missing or zero prior. -/
theorem C7_amended (valid_obs : List (String × ℚ)) (r : FredChangeResult) (cur : ℚ)
    (h : get_fred_data_with_change valid_obs = some r) :
    ((r.prev_value = none ∨ r.prev_value = some 0) → r.change = some 0) ∧
    r.change ≠ none ∧
    usdjpyHistChange none cur = 0 ∧
    usdjpyHistChange (some 0) cur = 0 ∧
    scannerPctChange none cur = none ∧
    scannerPctChange (some 0) cur = none := by
  refine ⟨?_, ?_, rfl, by simp [usdjpyHistChange], rfl, by simp [scannerPctChange]⟩
  · rcases valid_obs with _ | ⟨⟨d0, v0⟩, _ | ⟨⟨d1, v1⟩, rest⟩⟩
    · simp [get_fred_data_with_change] at h
    · simp only [get_fred_data_with_change, Option.some.injEq] at h
      subst h
      intro _
      rfl
    · simp only [get_fred_data_with_change, Option.some.injEq] at h
      subst h
      rintro (hno | hz)
      · simp at hno
      · simp only [Option.some.injEq] at hz
        simp [hz]
  · rcases valid_obs with _ | ⟨⟨d0, v0⟩, _ | ⟨⟨d1, v1⟩, rest⟩⟩
    · simp [get_fred_data_with_change] at h
    · simp only [get_fred_data_with_change, Option.some.injEq] at h
      subst h
      simp
    · simp only [get_fred_data_with_change, Option.some.injEq] at h
      subst h
      simp

/-- Witness for C7 amended at the single-observation input (prior missing):
the change is the sentinel 0, not null; the USDJPY history loop change is
the sentinel 0 for a missing or zero prior; and the scanner change is null
for a missing or zero prior. -/
theorem C7_amended_witness :
    (⟨3, none, some 0, "2025-01-03"⟩ : FredChangeResult).change = some 0 ∧
    (⟨3, none, some 0, "2025-01-03"⟩ : FredChangeResult).change ≠ none ∧
    usdjpyHistChange none 7 = 0 ∧
    usdjpyHistChange (some 0) 7 = 0 ∧
    scannerPctChange none 7 = none ∧
    scannerPctChange (some 0) 7 = none :=
  ⟨(C7_amended [("2025-01-03", 3)] ⟨3, none, some 0, "2025-01-03"⟩ 7 rfl).1
      (Or.inl rfl),
   (C7_amended [("2025-01-03", 3)] ⟨3, none, some 0, "2025-01-03"⟩ 7 rfl).2.1,
   (C7_amended [("2025-01-03", 3)] ⟨3, none, some 0, "2025-01-03"⟩ 7 rfl).2.2.1,
   (C7_amended [("2025-01-03", 3)] ⟨3, none, some 0, "2025-01-03"⟩ 7 rfl).2.2.2.1,
   (C7_amended [("2025-01-03", 3)] ⟨3, none, some 0, "2025-01-03"⟩ 7 rfl).2.2.2.2.1,
   (C7_amended [("2025-01-03", 3)] ⟨3, none, some 0, "2025-01-03"⟩ 7 rfl).2.2.2.2.2⟩

/-- C8 counterexample: an invalid configuration with
on_threshold = 1 < watch_threshold = 2 is not rejected anywhere — the
classifier silently uses it at evaluation time and returns "ON". -/
theorem C8_counterexample :
    signalFromScore 1 2 1 = "ON" ∧ 1 < 2 := by
  constructor
  · rfl
  · decide

/-- C8 amended: the repository performs no threshold validation at
configuration-load time (src/config.py only assigns constants); the
classifier totally classifies every score under every threshold pair,
including invalid ones; the shipped defaults do satisfy
on_threshold ≥ watch_threshold. -/
theorem C8_amended (on_threshold watch_threshold score : Nat) :
    (signalFromScore on_threshold watch_threshold score = "ON" ∨
     signalFromScore on_threshold watch_threshold score = "WATCH" ∨
     signalFromScore on_threshold watch_threshold score = "OFF") ∧
    HIDDEN_QE_SIGNAL_WATCH ≤ HIDDEN_QE_SIGNAL_ON := by
  refine ⟨?_, by decide⟩
  unfold signalFromScore
  split
  · exact Or.inl rfl
  · split
    · exact Or.inr (Or.inl rfl)
    · exact Or.inr (Or.inr rfl)

/-- C9 counterexample: two invocations of the classifier with identical
observations and configuration but different wall-clock readings produce
different complete output objects (the `updated_at` field differs). -/
theorem C9_counterexample :
    calculate_hidden_qe_signal "2025-01-01 00:00 UTC" none none none none ≠
    calculate_hidden_qe_signal "2025-01-02 00:00 UTC" none none none none := by
  decide

/-- C9 amended: apart from the wall-clock `updated_at` field, the classifier
output is a deterministic function of the observations and configuration
(signal, score and all met flags agree across any two clock readings), and
the composite scorer is determined by the resolved mode and the three
weight sums alone. -/
theorem C9_amended (now1 now2 : String) (walcl_data : Option FredObs)
    (swpt_data : Option SwptObs) (treast_data : Option FredObs)
    (usdjpy_data : Option UsdJpyObs) (score_mode : String)
    (bull_w bear_w neut_w : Nat) :
    (calculate_hidden_qe_signal now1 walcl_data swpt_data treast_data usdjpy_data).signal =
      (calculate_hidden_qe_signal now2 walcl_data swpt_data treast_data usdjpy_data).signal ∧
    (calculate_hidden_qe_signal now1 walcl_data swpt_data treast_data usdjpy_data).score =
      (calculate_hidden_qe_signal now2 walcl_data swpt_data treast_data usdjpy_data).score ∧
    (calculate_hidden_qe_signal now1 walcl_data swpt_data treast_data usdjpy_data).total_assets_met =
      (calculate_hidden_qe_signal now2 walcl_data swpt_data treast_data usdjpy_data).total_assets_met ∧
    (calculate_hidden_qe_signal now1 walcl_data swpt_data treast_data usdjpy_data).treasury_met =
      (calculate_hidden_qe_signal now2 walcl_data swpt_data treast_data usdjpy_data).treasury_met ∧
    (calculate_hidden_qe_signal now1 walcl_data swpt_data treast_data usdjpy_data).swaps_met =
      (calculate_hidden_qe_signal now2 walcl_data swpt_data treast_data usdjpy_data).swaps_met ∧
    (calculate_hidden_qe_signal now1 walcl_data swpt_data treast_data usdjpy_data).usdjpy_met =
      (calculate_hidden_qe_signal now2 walcl_data swpt_data treast_data usdjpy_data).usdjpy_met ∧
    (calculate_hidden_qe_signal now1 walcl_data swpt_data treast_data usdjpy_data).updated_at = now1 ∧
    computeCompositeScore score_mode bull_w bear_w neut_w =
      computeCompositeScore (resolveScoreMode score_mode) bull_w bear_w neut_w := by
  have hidem : resolveScoreMode (resolveScoreMode score_mode) = resolveScoreMode score_mode := by
    by_cases h : score_mode = "momentum" ∨ score_mode = "conservative"
    · simp [resolveScoreMode, h]
    · simp [resolveScoreMode, h]
  refine ⟨rfl, rfl, rfl, rfl, rfl, rfl, rfl, ?_⟩
  unfold computeCompositeScore
  rw [hidem]

/-- C10 counterexample: at scan index 52 with 60 retained SWPT samples, the
rolling window `swpt_values[max(0, i-52):i+1]` holds 53 samples — more than
the claimed cap of 52. -/
theorem C10_counterexample :
    (swptRecentWindow (List.replicate 60 (0:ℚ)) 52).length = 53 ∧
    ¬ (swptRecentWindow (List.replicate 60 (0:ℚ)) 52).length ≤ 52 := by
  constructor
  · decide
  · decide

/-- C10 amended: the server scanner's window holds at most 53 samples (the
current one plus up to 52 prior); the analyzer's pandas
rolling(window=52, min_periods=10) window holds at most 52; whenever the
server window has fewer than 10 samples the z-score is 0. -/
theorem C10_amended (zcalc : List ℚ → ℚ) (swpt_values : List ℚ) (i : Nat) :
    (swptRecentWindow swpt_values i).length ≤ 53 ∧
    (analyzerRollingWindow swpt_values i).length ≤ 52 ∧
    ((swptRecentWindow swpt_values i).length < 10 →
      rollingZscore zcalc swpt_values i = 0) := by
  refine ⟨?_, ?_, ?_⟩
  · simp only [swptRecentWindow, List.length_drop, List.length_take]
    omega
  · simp only [analyzerRollingWindow, List.length_drop, List.length_take]
    omega
  · intro hlt
    unfold rollingZscore
    rw [if_neg (by omega)]

/-- Witness for C10 amended at the 3-sample series [1, 2, 3], index 1, and a
nonzero statistics function: the 2-sample window is under both caps and
forces the z-score to 0. -/
theorem C10_amended_witness :
    (swptRecentWindow [1, 2, 3] 1).length ≤ 53 ∧
    (analyzerRollingWindow [1, 2, 3] 1).length ≤ 52 ∧
    rollingZscore (fun _ => 37) [1, 2, 3] 1 = 0 :=
  ⟨(C10_amended (fun _ => 37) [1, 2, 3] 1).1,
   (C10_amended (fun _ => 37) [1, 2, 3] 1).2.1,
   (C10_amended (fun _ => 37) [1, 2, 3] 1).2.2 (by decide)⟩
